import Mathlib

/-!
Shallow embedding of the Traffic-Management-System server
(nsp_traffic_management.py) in Lean 4, together with theorems settling the
frozen specification claims.

Python dictionaries are modelled as association lists over `String` keys
(first match wins on lookup, in-place overwrite on assignment, append when the
key is absent).  Wall-clock readings (time.time()) are modelled as rationals
supplied explicitly to the operations that read the clock.  Python floats are
modelled as rationals; the claims under scrutiny only concern exact values
(0, 1, payload values stored verbatim) where rational and IEEE semantics
agree.
-/

/-- Python dict lookup: first binding for the key, if any. -/
def dictLookup {α : Type} (d : List (String × α)) (k : String) : Option α :=
  match d with
  | [] => none
  | (k₀, v₀) :: rest => if k₀ = k then some v₀ else dictLookup rest k

/-- Python dict assignment `d[k] = v`: overwrite the existing binding in place,
or append a new one. -/
def dictSet {α : Type} (d : List (String × α)) (k : String) (v : α) :
    List (String × α) :=
  match d with
  | [] => [(k, v)]
  | (k₀, v₀) :: rest =>
    if k₀ = k then (k, v) :: rest else (k₀, v₀) :: dictSet rest k v

/-! ## SHA-256 (hashlib.sha256(...).hexdigest())

The source derives session tokens with hashlib's SHA-256.  The function is
implemented here in full over byte lists, with 32-bit words as naturals
reduced mod 2^32. -/

/-- Reduce to a 32-bit word. -/
def w32 (n : Nat) : Nat := n % 4294967296

/-- Right rotation of a 32-bit word. -/
def rotr32 (k x : Nat) : Nat := w32 ((x >>> k) ||| (x <<< (32 - k)))

def sha_ch (e f g : Nat) : Nat := (e &&& f) ^^^ ((e ^^^ 4294967295) &&& g)

def sha_maj (a b c : Nat) : Nat := (a &&& b) ^^^ (a &&& c) ^^^ (b &&& c)

def bsig0 (x : Nat) : Nat := rotr32 2 x ^^^ rotr32 13 x ^^^ rotr32 22 x

def bsig1 (x : Nat) : Nat := rotr32 6 x ^^^ rotr32 11 x ^^^ rotr32 25 x

def ssig0 (x : Nat) : Nat := rotr32 7 x ^^^ rotr32 18 x ^^^ (x >>> 3)

def ssig1 (x : Nat) : Nat := rotr32 17 x ^^^ rotr32 19 x ^^^ (x >>> 10)

/-- The 64 SHA-256 round constants, written in decimal. -/
def sha256K : List Nat :=
  [1116352408, 1899447441, 3049323471, 3921009573,
   961987163, 1508970993, 2453635748, 2870763221,
   3624381080, 310598401, 607225278, 1426881987,
   1925078388, 2162078206, 2614888103, 3248222580,
   3835390401, 4022224774, 264347078, 604807628,
   770255983, 1249150122, 1555081692, 1996064986,
   2554220882, 2821834349, 2952996808, 3210313671,
   3336571891, 3584528711, 113926993, 338241895,
   666307205, 773529912, 1294757372, 1396182291,
   1695183700, 1986661051, 2177026350, 2456956037,
   2730485921, 2820302411, 3259730800, 3345764771,
   3516065817, 3600352804, 4094571909, 275423344,
   430227734, 506948616, 659060556, 883997877,
   958139571, 1322822218, 1537002063, 1747873779,
   1955562222, 2024104815, 2227730452, 2361852424,
   2428436474, 2756734187, 3204031479, 3329325298]

/-- The SHA-256 initial hash state, written in decimal. -/
def sha256H0 : List Nat :=
  [1779033703, 3144134277, 1013904242, 2773480762,
   1359893119, 2600822924, 528734635, 1541459225]

/-- Extend a 16-word block to the 64-word message schedule. -/
def sha256Schedule (block : List Nat) : Array Nat :=
  (List.range 48).foldl
    (fun w i =>
      w.push (w32 (ssig1 (w.get! (i + 14)) + w.get! (i + 9) +
        ssig0 (w.get! (i + 1)) + w.get! i)))
    block.toArray

/-- Compress one 512-bit block into the running hash state. -/
def sha256Compress (hs : List Nat) (block : List Nat) : List Nat :=
  let ws := sha256Schedule block
  let s :=
    (List.range 64).foldl
      (fun s i =>
        match s with
        | (a, b, c, d, e, f, g, h) =>
          let t1 := w32 (h + bsig1 e + sha_ch e f g + sha256K.get! i + ws.get! i)
          let t2 := w32 (bsig0 a + sha_maj a b c)
          (w32 (t1 + t2), a, b, c, w32 (d + t1), e, f, g))
      (hs.get! 0, hs.get! 1, hs.get! 2, hs.get! 3,
       hs.get! 4, hs.get! 5, hs.get! 6, hs.get! 7)
  match s with
  | (a, b, c, d, e, f, g, h) =>
    [w32 (hs.get! 0 + a), w32 (hs.get! 1 + b), w32 (hs.get! 2 + c),
     w32 (hs.get! 3 + d), w32 (hs.get! 4 + e), w32 (hs.get! 5 + f),
     w32 (hs.get! 6 + g), w32 (hs.get! 7 + h)]

/-- Big-endian 8-byte encoding of a natural number. -/
def beBytes8 (n : Nat) : List Nat :=
  (List.range 8).map (fun i => (n >>> ((7 - i) * 8)) % 256)

/-- SHA-256 padding: append 0x80, zero bytes, and the 64-bit bit length. -/
def sha256Pad (msg : List Nat) : List Nat :=
  let padLen := (64 - (msg.length + 9) % 64) % 64
  msg ++ [128] ++ List.replicate padLen 0 ++ beBytes8 (msg.length * 8)

/-- Group bytes into big-endian 32-bit words. -/
def bytesToWords : List Nat → List Nat
  | b0 :: b1 :: b2 :: b3 :: rest =>
    (((b0 * 256 + b1) * 256 + b2) * 256 + b3) :: bytesToWords rest
  | _ => []

/-- Group words into 16-word blocks. -/
def wordsToBlocks : List Nat → List (List Nat)
  | w0 :: w1 :: w2 :: w3 :: w4 :: w5 :: w6 :: w7 ::
    w8 :: w9 :: w10 :: w11 :: w12 :: w13 :: w14 :: w15 :: rest =>
    [w0, w1, w2, w3, w4, w5, w6, w7,
     w8, w9, w10, w11, w12, w13, w14, w15] :: wordsToBlocks rest
  | _ => []

def hexDigitChar (n : Nat) : Char :=
  if n < 10 then Char.ofNat (48 + n) else Char.ofNat (87 + n)

def hexWord32 (n : Nat) : String :=
  String.mk ((List.range 8).map (fun i => hexDigitChar ((n >>> ((7 - i) * 4)) % 16)))

/-- Full SHA-256 hex digest of a byte list. -/
def sha256hex (msg : List Nat) : String :=
  let blocks := wordsToBlocks (bytesToWords (sha256Pad msg))
  let digest := blocks.foldl sha256Compress sha256H0
  String.join (digest.map hexWord32)

/-- UTF-8 bytes of a string, as naturals. -/
def strBytes (s : String) : List Nat := s.toUTF8.toList.map (fun b => b.toNat)

/-! ## SecurityManager (nsp_traffic_management.py, lines 22-57) -/

/-- One entry of `failed_attempts`: a dict with keys count and timestamp. -/
structure FailedRecord where
  count : Nat
  timestamp : ℚ
deriving DecidableEq

/-- The mutable state of `SecurityManager`. -/
structure SecurityState where
  authorized_clients : List String
  session_tokens : List (String × String)
  failed_attempts : List (String × FailedRecord)
deriving DecidableEq

/-- `SecurityManager.max_attempts`. -/
def max_attempts : Nat := 3

/-- `SecurityManager.block_duration` (seconds). -/
def block_duration : ℚ := 300

/-- `SecurityManager.generate_token`: the SHA-256 hex digest of the client id,
a colon and the current wall-clock reading (Python renders the float with
str; here the rational clock value is rendered with toString). -/
def generate_token (client_id : String) (now : ℚ) : String :=
  sha256hex (strBytes (client_id ++ ":" ++ toString now))

/-- `SecurityManager.authenticate_client` (lines 36-57).  `now` models the
time.time() readings made during the call.  Returns the updated state and the
boolean result. -/
def authenticate_client (st : SecurityState) (client_id password : String)
    (now : ℚ) : SecurityState × Bool :=
  -- lines 38-42: lockout check, reached only when a record exists,
  -- the window is still open and the count reached max_attempts
  let locked : Bool :=
    match dictLookup st.failed_attempts client_id with
    | some r =>
      if now - r.timestamp < block_duration then
        if r.count ≥ max_attempts then true else false
      else false
    | none => false
  if locked then
    (st, false)
  else if password = "secure_password" then
    -- lines 45-50: success path; the failed_attempts record is left untouched
    let token := generate_token client_id now
    ({ st with
        authorized_clients :=
          if client_id ∈ st.authorized_clients then st.authorized_clients
          else client_id :: st.authorized_clients,
        session_tokens := dictSet st.session_tokens client_id token }, true)
  else
    -- lines 52-57: record the failed attempt; an existing record keeps its
    -- original timestamp, only the count is incremented
    match dictLookup st.failed_attempts client_id with
    | none =>
      ({ st with
          failed_attempts := dictSet st.failed_attempts client_id ⟨1, now⟩ },
        false)
    | some r =>
      ({ st with
          failed_attempts :=
            dictSet st.failed_attempts client_id ⟨r.count + 1, r.timestamp⟩ },
        false)

/-! ## SecureTrafficSystem: detection and scoring (lines 189-226) -/

/-- One box produced by the external YOLO detector: numeric class id,
confidence, and integer bounding-box corners (x1, y1, x2, y2). -/
structure RawBox where
  cls : Nat
  conf : ℚ
  box : ℤ × ℤ × ℤ × ℤ
deriving DecidableEq

/-- One detection record built by `detect_vehicles` (lines 206-210):
keys class, confidence, box. -/
structure Detection where
  clsName : String
  confidence : ℚ
  box : ℤ × ℤ × ℤ × ℤ
deriving DecidableEq

/-- `self.vehicle_classes` (lines 71-77), as a partial map from class id to
class name. -/
def vehicle_classes (cls : Nat) : Option String :=
  match cls with
  | 2 => some "car"
  | 3 => some "motorcycle"
  | 5 => some "bus"
  | 7 => some "truck"
  | 1 => some "bicycle"
  | _ => none

/-- `self.emergency_classes.values()` (lines 80-84): the numeric ids of
ambulance, fire_truck and police_car. -/
def emergency_class_values : List Nat := [2, 7, 2]

/-- The classification loop of `detect_vehicles` (lines 197-215): boxes whose
class id is a vehicle class are split into the regular and the emergency
list, in iteration order. -/
def classify_boxes : List RawBox → List Detection × List Detection
  | [] => ([], [])
  | b :: rest =>
    let p := classify_boxes rest
    match vehicle_classes b.cls with
    | none => p
    | some name =>
      if b.cls ∈ emergency_class_values then (p.1, ⟨name, b.conf, b.box⟩ :: p.2)
      else (⟨name, b.conf, b.box⟩ :: p.1, p.2)

/-- Bounding-box area term (x2-x1)*(y2-y1) from line 219. -/
def box_area : ℤ × ℤ × ℤ × ℤ → ℤ
  | (x1, y1, x2, y2) => (x2 - x1) * (y2 - y1)

/-- `SecureTrafficSystem.detect_vehicles` (lines 189-226) on the boxes the
model reported for a frame of shape (shape0, shape1).  Line 219 iterates the
regular-vehicle detection dicts as for _, _, (x1, y1, x2, y2) in
regular_vehicles: iterating a dict yields its keys, and unpacking the third
key — the 3-character string 'box' — into four targets raises ValueError, so
any non-empty regular list lands in the handler on lines 224-226, which logs
and returns two empty lists and congestion 0.0.  With an empty regular list
the sum over the empty generator is 0; the division on line 220 then raises
ZeroDivisionError when the frame area is zero (same handler), and otherwise
computes min(1.0, 0 / frame_area). -/
def detect_vehicles (boxes : List RawBox) (shape0 shape1 : Nat) :
    List Detection × List Detection × ℚ :=
  let p := classify_boxes boxes
  let frame_area : ℤ := (shape0 : ℤ) * (shape1 : ℤ)
  match p.1 with
  | _ :: _ => ([], [], 0)
  | [] =>
    let vehicle_area : ℤ := 0
    if frame_area = 0 then ([], [], 0)
    else (p.1, p.2, min 1 ((vehicle_area : ℚ) / (frame_area : ℚ)))

/-! ## SecureTrafficSystem: per-client state and the connection loop
(lines 59-187) -/

/-- The parsed JSON body of a telemetry message, restricted to the fields the
server reads (lines 167-172) plus the token field every client message
carries but the server never reads. -/
structure TrafficData where
  signal_state : Option String
  congestion : Option ℚ
  token : Option String
deriving DecidableEq

/-- The per-client server state: the security manager plus the signals and
congestion_levels dicts (lines 61, 87-88). -/
structure ServerState where
  security_manager : SecurityState
  signals : List (String × String)
  congestion_levels : List (String × ℚ)
deriving DecidableEq

/-- `SecureTrafficSystem.process_traffic_data` (lines 160-177).  `msg` is the
result of json.loads: `none` models a parse failure, whose exception is
caught on lines 176-177 leaving the state unchanged. -/
def process_traffic_data (msg : Option TrafficData) (client_id : String)
    (st : ServerState) : ServerState :=
  match msg with
  | none => st
  | some d =>
    let st1 :=
      match d.signal_state with
      | some s => { st with signals := dictSet st.signals client_id s }
      | none => st
    match d.congestion with
    | some c =>
      { st1 with
          congestion_levels := dictSet st1.congestion_levels client_id c }
    | none => st1

/-- The response body built by `generate_response` (lines 179-187), without
the wall-clock timestamp field. -/
structure TrafficResp where
  signal_state : String
  congestion_level : ℚ
  token : String
deriving DecidableEq

/-- `SecureTrafficSystem.generate_response` (lines 179-187). -/
def generate_response (client_id : String) (st : ServerState) : TrafficResp :=
  { signal_state := (dictLookup st.signals client_id).getD "UNKNOWN"
  , congestion_level := (dictLookup st.congestion_levels client_id).getD 0
  , token :=
      (dictLookup st.security_manager.session_tokens client_id).getD "" }

/-- What one iteration of the telemetry loop (lines 134-150) observes on the
socket: the peer closed (recv returned no data), an I/O exception, or a
received message (whose JSON parse may fail, modelled by `Option`). -/
inductive RecvEvent where
  | closedByPeer
  | ioError
  | dataMsg (msg : Option TrafficData)
deriving DecidableEq

/-- Whether the telemetry loop keeps running after an iteration. -/
inductive LoopOutcome where
  | continueLoop
  | closedConn
deriving DecidableEq

/-- One iteration of the authenticated telemetry loop of `handle_client`
(lines 134-150): empty recv or an I/O exception break the loop (the socket
is then closed in the finally block); otherwise the data is processed and a
response generated from the updated state is sent, and the loop continues. -/
def telemetry_step (st : ServerState) (client_id : String) (ev : RecvEvent) :
    ServerState × Option TrafficResp × LoopOutcome :=
  match ev with
  | .closedByPeer => (st, none, .closedConn)
  | .ioError => (st, none, .closedConn)
  | .dataMsg msg =>
    let st1 := process_traffic_data msg client_id st
    (st1, some (generate_response client_id st1), .continueLoop)

/-- Python str.split on a single-character separator: every occurrence of
the separator starts a new (possibly empty) part. -/
def splitColon : List Char → List (List Char)
  | [] => [[]]
  | c :: rest =>
    let r := splitColon rest
    if c = ':' then [] :: r
    else
      match r with
      | [] => [[c]]
      | h :: t => (c :: h) :: t

/-- Outcome of the authentication phase of `handle_client` (lines 125-158):
a token was sent and the telemetry loop entered; the literal
"Authentication failed" was sent and the socket closed; or an exception
(such as the ValueError from unpacking split) closed the socket with nothing
sent. -/
inductive AuthOutcome where
  | tokenSent (token : String)
  | authFailedSent
  | errorClosed
deriving DecidableEq

/-- The authentication phase of `SecureTrafficSystem.handle_client`
(lines 125-158): split the received auth frame at colons, unpack into
client_id and password (a ValueError when the split does not have exactly
two parts propagates to line 155, so nothing is sent and the finally block
closes the socket), authenticate, and either send the stored token or the
failure indicator. -/
def handle_client_auth (st : SecurityState) (auth_data : String) (now : ℚ) :
    SecurityState × AuthOutcome :=
  match splitColon auth_data.toList with
  | [cid, pwd] =>
    let client_id := String.mk cid
    let password := String.mk pwd
    let r := authenticate_client st client_id password now
    if r.2 then
      (r.1, .tokenSent ((dictLookup r.1.session_tokens client_id).getD ""))
    else (r.1, .authFailedSent)
  | _ => (st, .errorClosed)

/-! ## Helper lemmas -/

theorem dictLookup_dictSet_self {α : Type} (d : List (String × α)) (k : String)
    (v : α) : dictLookup (dictSet d k v) k = some v := by
  induction d with
  | nil => simp [dictSet, dictLookup]
  | cons hd tl ih =>
    obtain ⟨k₀, v₀⟩ := hd
    by_cases h : k₀ = k
    · simp [dictSet, dictLookup, h]
    · simp [dictSet, dictLookup, h, ih]

theorem splitColon_ne_nil (l : List Char) : splitColon l ≠ [] := by
  cases l with
  | nil => simp [splitColon]
  | cons c rest =>
    by_cases hc : c = ':'
    · simp [splitColon, hc]
    · simp only [splitColon, if_neg hc]
      cases h : splitColon rest <;> simp

theorem splitColon_length (l : List Char) :
    (splitColon l).length = l.count ':' + 1 := by
  induction l with
  | nil => simp [splitColon]
  | cons c rest ih =>
    by_cases hc : c = ':'
    · subst hc
      simp [splitColon, List.count_cons, ih]
    · have hne := splitColon_ne_nil rest
      cases h : splitColon rest with
      | nil => exact absurd h hne
      | cons hd tl =>
        rw [h] at ih
        simp only [List.length_cons] at ih
        simp [splitColon, hc, h, List.count_cons]
        omega

theorem detect_vehicles_congestion_eq_zero (boxes : List RawBox)
    (shape0 shape1 : Nat) : (detect_vehicles boxes shape0 shape1).2.2 = 0 := by
  simp only [detect_vehicles]
  rcases hp : (classify_boxes boxes).1 with _ | ⟨d, ds⟩
  · by_cases h : ((shape0 : ℤ) * (shape1 : ℤ) = 0)
    · simp [h]
    · simp [h, min_def]
  · simp

theorem auth_success_spec (st : SecurityState) (c : String) (now : ℚ)
    (h : dictLookup st.failed_attempts c = none) :
    (authenticate_client st c "secure_password" now).2 = true ∧
    (authenticate_client st c "secure_password" now).1.failed_attempts
      = st.failed_attempts ∧
    (authenticate_client st c "secure_password" now).1.session_tokens
      = dictSet st.session_tokens c (generate_token c now) := by
  simp [authenticate_client, h]

/-! ## Claim theorems -/

/-- Claim C1, evaluated at the failing input: with the stored session token
"T1" for client "c", a telemetry message carrying the mismatched token "BAD"
and a congestion field is processed anyway — the stored congestion level is
mutated to the payload value and the connection loop continues; the server
performs no token verification at all. -/
theorem c1_mismatched_token_processed :
    dictLookup
        ((⟨⟨[], [("c", "T1")], []⟩, [], []⟩ : ServerState).security_manager.session_tokens)
        "c" = some "T1" ∧
    "BAD" ≠ "T1" ∧
    (telemetry_step ⟨⟨[], [("c", "T1")], []⟩, [], []⟩ "c"
        (.dataMsg (some ⟨none, some (7/10), some "BAD"⟩))).2.2
      = LoopOutcome.continueLoop ∧
    dictLookup (telemetry_step ⟨⟨[], [("c", "T1")], []⟩, [], []⟩ "c"
        (.dataMsg (some ⟨none, some (7/10), some "BAD"⟩))).1.congestion_levels "c"
      = some (7/10) :=
  ⟨rfl, by decide, rfl, rfl⟩

/-- Counterexample to claim C2: a telemetry message carrying congestion 5/2 is
stored verbatim by process_traffic_data, so the stored congestion level lies
outside the interval from 0 to 1. -/
theorem c2_congestion_unclamped_counterexample :
    dictLookup (process_traffic_data (some ⟨none, some (5/2), none⟩) "c"
        ⟨⟨[], [], []⟩, [], []⟩).congestion_levels "c" = some (5/2) ∧
    ¬((5/2 : ℚ) ≤ 1) :=
  ⟨rfl, by norm_num⟩

/-- Claim C2 amended: the stored congestion level is the raw telemetry
payload value, stored verbatim by process_traffic_data with no clamping or
validation, so it is not confined to the interval from 0 to 1; the
congestion computed by detect_vehicles itself is identically 0 — the
ValueError raised by the dict unpacking on line 219 discards any non-empty
regular-vehicle list, and an empty one sums to area 0 — and hence trivially
lies within the interval. -/
theorem c2_stored_unclamped_scorer_zero (st : ServerState) (c : String)
    (q : ℚ) (sg tok : Option String) (boxes : List RawBox)
    (shape0 shape1 : Nat) :
    dictLookup (process_traffic_data (some ⟨sg, some q, tok⟩) c
        st).congestion_levels c = some q ∧
    0 ≤ (detect_vehicles boxes shape0 shape1).2.2 ∧
    (detect_vehicles boxes shape0 shape1).2.2 ≤ 1 := by
  refine ⟨?_, ?_, ?_⟩
  · cases sg <;> simp [process_traffic_data, dictLookup_dictSet_self]
  · simp [detect_vehicles_congestion_eq_zero]
  · simp [detect_vehicles_congestion_eq_zero]

/-- Claim C3: when the AuthAttemptRecord for the client has count at least 3
and its lockout window has not elapsed, authentication fails for every
credential, and the whole security state — the record included — is left
unchanged. -/
theorem c3_lockout_fails_without_credential (st : SecurityState)
    (client_id password : String) (now : ℚ) (r : FailedRecord)
    (hrec : dictLookup st.failed_attempts client_id = some r)
    (hcount : r.count ≥ max_attempts)
    (hwin : now - r.timestamp < block_duration) :
    authenticate_client st client_id password now = (st, false) := by
  simp [authenticate_client, hrec, hwin, hcount]

/-- Witness for claim C3: the 4th attempt with the correct credential inside
the window still fails and mutates nothing. -/
theorem c3_lockout_fails_without_credential_witness :
    (dictLookup [("s2", (⟨3, 0⟩ : FailedRecord))] "s2" = some ⟨3, 0⟩ ∧
      (⟨3, 0⟩ : FailedRecord).count ≥ max_attempts ∧
      (10 : ℚ) - (⟨3, (0 : ℚ)⟩ : FailedRecord).timestamp < block_duration) ∧
    authenticate_client ⟨[], [], [("s2", ⟨3, 0⟩)]⟩ "s2" "secure_password" 10
      = (⟨[], [], [("s2", ⟨3, 0⟩)]⟩, false) :=
  ⟨⟨rfl, by norm_num [max_attempts], by norm_num [block_duration]⟩,
    c3_lockout_fails_without_credential _ _ _ _ _ rfl
      (by norm_num [max_attempts]) (by norm_num [block_duration])⟩

/-- Counterexample to claim C4: a successful authentication leaves the
existing AuthAttemptRecord in place (count 1, timestamp 0 — not reset), and
after the lockout window has elapsed a failed attempt increments the record
to count 4 keeping the original timestamp, instead of resetting it to
empty. -/
theorem c4_record_never_reset_counterexample :
    ((authenticate_client ⟨[], [], [("c", ⟨1, 0⟩)]⟩ "c" "secure_password" 5).2
        = true ∧
      (authenticate_client ⟨[], [], [("c", ⟨1, 0⟩)]⟩ "c"
          "secure_password" 5).1.failed_attempts = [("c", ⟨1, 0⟩)]) ∧
    ((authenticate_client ⟨[], [], [("c", ⟨3, 0⟩)]⟩ "c"
        "wrong" 400).1).failed_attempts = [("c", ⟨4, 0⟩)] := by
  refine ⟨⟨?_, ?_⟩, ?_⟩
  · norm_num [authenticate_client, dictLookup, block_duration, max_attempts]
  · norm_num [authenticate_client, dictLookup, block_duration, max_attempts]
  · norm_num [authenticate_client, dictLookup, dictSet, block_duration,
      max_attempts]
    rw [if_neg (by decide : ¬("wrong" = "secure_password"))]

/-- Claim C4 amended: the AuthAttemptRecord is never reset.  Once the lockout
window has elapsed the lockout check merely stops applying, so a correct
credential succeeds while the record survives unchanged (failed attempts
keep incrementing its count under the original timestamp). -/
theorem c4_elapsed_window_no_reset (st : SecurityState) (c : String)
    (now : ℚ) (r : FailedRecord)
    (hrec : dictLookup st.failed_attempts c = some r)
    (helapsed : block_duration ≤ now - r.timestamp) :
    (authenticate_client st c "secure_password" now).2 = true ∧
    (authenticate_client st c "secure_password" now).1.failed_attempts
      = st.failed_attempts := by
  have hlt : ¬(now - r.timestamp < block_duration) := not_lt.mpr helapsed
  simp [authenticate_client, hrec, hlt]

/-- Witness for the amended claim C4. -/
theorem c4_elapsed_window_no_reset_witness :
    (dictLookup [("c", (⟨3, (0 : ℚ)⟩ : FailedRecord))] "c" = some ⟨3, 0⟩ ∧
      block_duration ≤ (400 : ℚ) - (⟨3, (0 : ℚ)⟩ : FailedRecord).timestamp) ∧
    ((authenticate_client ⟨[], [], [("c", ⟨3, 0⟩)]⟩ "c"
        "secure_password" 400).2 = true ∧
      (authenticate_client ⟨[], [], [("c", ⟨3, 0⟩)]⟩ "c"
          "secure_password" 400).1.failed_attempts = [("c", ⟨3, 0⟩)]) :=
  ⟨⟨rfl, by norm_num [block_duration]⟩,
    c4_elapsed_window_no_reset _ _ _ _ rfl (by norm_num [block_duration])⟩

/-- Claim C5, evaluated at the failing input: a 100 by 100 frame with two
class-2 (car) detections whose boxes total 4000 = 40 percent of the frame
area.  Both cars are diverted to the emergency list (class 2 is among
emergency_class_values), so the regular-vehicle area is 0 and the scorer
yields congestion 0, not 0.4; the response signal state is "UNKNOWN" when no
signal has been set. -/
theorem c5_two_cars_scored_zero :
    detect_vehicles [⟨2, 9/10, (0, 0, 50, 40)⟩, ⟨2, 9/10, (50, 0, 100, 40)⟩]
        100 100
      = ([], [⟨"car", 9/10, (0, 0, 50, 40)⟩, ⟨"car", 9/10, (50, 0, 100, 40)⟩],
          0) ∧
    box_area (0, 0, 50, 40) + box_area (50, 0, 100, 40) = 4000 ∧
    (generate_response "sensor-1" ⟨⟨[], [], []⟩, [], []⟩).signal_state
      = "UNKNOWN" := by
  refine ⟨?_, by decide, rfl⟩
  norm_num [detect_vehicles, classify_boxes, vehicle_classes,
    emergency_class_values, box_area, min_def]

/-- Counterexample to claim C6: a class-5 (bus) detection — a class the code
keeps in the regular-vehicle list — with box area 40000 exceeding the
100 by 100 frame area scores congestion 0 rather than 1: iterating the
regular-vehicle dicts on line 219 raises ValueError, and the handler
returns congestion 0.0. -/
theorem c6_excess_area_zero_counterexample :
    (detect_vehicles [⟨5, 1, (0, 0, 200, 200)⟩] 100 100).2.2 = 0 ∧
    box_area (0, 0, 200, 200) = 40000 ∧ ((100 : ℤ) * 100 < 40000) ∧
    (0 : ℚ) ≠ 1 :=
  ⟨rfl, by decide, by decide, by norm_num⟩

/-- Claim C6 amended: Score never returns 1 — the clamp on line 220 is
unreachable with a positive area, because any non-empty regular-vehicle
list raises ValueError in the area sum of line 219 (the handler returns
congestion 0.0) and an empty one sums to area 0 — so the congestion output
is exactly 0 for every input; in particular the empty-detection-list half
of the claim does hold: the congestion for an empty list is exactly 0. -/
theorem c6_congestion_always_zero (boxes : List RawBox)
    (shape0 shape1 : Nat) :
    (detect_vehicles boxes shape0 shape1).2.2 = 0 ∧
    (detect_vehicles ([] : List RawBox) shape0 shape1).2.2 = 0 :=
  ⟨detect_vehicles_congestion_eq_zero boxes shape0 shape1,
    detect_vehicles_congestion_eq_zero [] shape0 shape1⟩

/-- Counterexample to claim C7: on a zero-area frame with one class-2 (car)
detection — which the classification loop places in the emergency list — the
exception handler returns congestion 0 with BOTH lists empty, so the
emergency information is discarded rather than returned alongside the 0. -/
theorem c7_emergency_flag_dropped_counterexample :
    detect_vehicles [⟨2, 1, (0, 0, 10, 10)⟩] 0 0 = ([], [], 0) ∧
    (classify_boxes [⟨2, 1, (0, 0, 10, 10)⟩]).2 = [⟨"car", 1, (0, 0, 10, 10)⟩] :=
  ⟨rfl, rfl⟩

/-- Claim C7 amended: when the frame area is zero, detect_vehicles returns
congestion 0 without raising a division error, but the exception path
discards all detections — both returned lists are empty, so the emergency
presence information is lost rather than reported. -/
theorem c7_zero_area_returns_zero (boxes : List RawBox) (shape0 shape1 : Nat)
    (h : shape0 * shape1 = 0) :
    detect_vehicles boxes shape0 shape1 = ([], [], 0) := by
  have h0 : (shape0 : ℤ) * (shape1 : ℤ) = 0 := by exact_mod_cast h
  simp only [detect_vehicles]
  rcases hp : (classify_boxes boxes).1 with _ | ⟨d, ds⟩
  · simp [h0]
  · simp

/-- Witness for the amended claim C7 at a concrete input. -/
theorem c7_zero_area_returns_zero_witness :
    ((0 : ℕ) * 5 = 0) ∧
    detect_vehicles [⟨2, 1, (0, 0, 10, 10)⟩] 0 5 = ([], [], 0) :=
  ⟨by decide, c7_zero_area_returns_zero _ _ _ (by decide)⟩

/-- Counterexample to claim C8: a telemetry message whose JSON parse fails
does NOT close the connection — the step leaves the state unchanged, still
sends a response, and the loop continues. -/
theorem c8_parse_failure_continues_counterexample :
    telemetry_step ⟨⟨[], [], []⟩, [], []⟩ "c" (.dataMsg none)
      = (⟨⟨[], [], []⟩, [], []⟩, some ⟨"UNKNOWN", 0, ""⟩, .continueLoop) ∧
    LoopOutcome.continueLoop ≠ LoopOutcome.closedConn :=
  ⟨rfl, by decide⟩

/-- Claim C8 amended: a malformed telemetry message (JSON parse failure) is
caught inside process_traffic_data: the per-client state is unchanged, a
response computed from the unchanged state is still sent and the loop
continues, and the server does not crash; the connection is closed only when
recv returns no data or a socket I/O error occurs. -/
theorem c8_parse_failure_swallowed (st : ServerState) (client_id : String) :
    telemetry_step st client_id (.dataMsg none)
      = (st, some (generate_response client_id st), .continueLoop) ∧
    telemetry_step st client_id .ioError = (st, none, .closedConn) ∧
    telemetry_step st client_id .closedByPeer = (st, none, .closedConn) :=
  ⟨rfl, rfl, rfl⟩

/-- Counterexample to claim C9: two successful authentications of client "c"
performed at the same clock reading 100 both succeed and both store the very
same token value sha256("c:100") — the tokens of two successful
authentications are not always distinct. -/
theorem c9_same_time_same_token_counterexample :
    (authenticate_client ⟨[], [], []⟩ "c" "secure_password" 100).2 = true ∧
    (authenticate_client (authenticate_client ⟨[], [], []⟩ "c"
        "secure_password" 100).1 "c" "secure_password" 100).2 = true ∧
    dictLookup (authenticate_client ⟨[], [], []⟩ "c"
        "secure_password" 100).1.session_tokens "c"
      = some (generate_token "c" 100) ∧
    dictLookup (authenticate_client (authenticate_client ⟨[], [], []⟩ "c"
        "secure_password" 100).1 "c" "secure_password" 100).1.session_tokens "c"
      = some (generate_token "c" 100) :=
  ⟨rfl, rfl, rfl, rfl⟩

/-- Claim C9 amended: tokens are a deterministic hash of the client id and
the clock reading, so two successful authentications yield the same token
whenever their clock readings coincide; the second successful authentication
does overwrite the stored token for the client with the token derived from
its own clock reading. -/
theorem c9_token_deterministic_overwrite (st : SecurityState) (c : String)
    (t1 t2 : ℚ) (h : dictLookup st.failed_attempts c = none) :
    (authenticate_client st c "secure_password" t1).2 = true ∧
    (authenticate_client (authenticate_client st c "secure_password" t1).1 c
        "secure_password" t2).2 = true ∧
    dictLookup (authenticate_client (authenticate_client st c
        "secure_password" t1).1 c "secure_password" t2).1.session_tokens c
      = some (generate_token c t2) ∧
    (t1 = t2 → generate_token c t1 = generate_token c t2) := by
  obtain ⟨h1, h2, h3⟩ := auth_success_spec st c t1 h
  have hnone : dictLookup (authenticate_client st c
      "secure_password" t1).1.failed_attempts c = none := by
    rw [h2]
    exact h
  obtain ⟨g1, g2, g3⟩ := auth_success_spec _ c t2 hnone
  refine ⟨h1, g1, ?_, fun he => by rw [he]⟩
  rw [g3, dictLookup_dictSet_self]

/-- Witness for the amended claim C9 at concrete inputs. -/
theorem c9_token_deterministic_overwrite_witness :
    dictLookup (⟨[], [], []⟩ : SecurityState).failed_attempts "c" = none ∧
    ((authenticate_client ⟨[], [], []⟩ "c" "secure_password" 100).2 = true ∧
      (authenticate_client (authenticate_client ⟨[], [], []⟩ "c"
          "secure_password" 100).1 "c" "secure_password" 200).2 = true ∧
      dictLookup (authenticate_client (authenticate_client ⟨[], [], []⟩ "c"
          "secure_password" 100).1 "c"
          "secure_password" 200).1.session_tokens "c"
        = some (generate_token "c" 200) ∧
      ((100 : ℚ) = 200 → generate_token "c" 100 = generate_token "c" 200)) :=
  ⟨rfl, c9_token_deterministic_overwrite _ _ _ _ rfl⟩

/-- Claim C10: an authentication frame whose text does not contain exactly
one colon makes the split-unpack on line 128 raise ValueError, so the
connection closes with no authentication response of either kind sent and
no change to the security state (no failed attempt recorded). -/
theorem c10_bad_auth_frame_closes_silently (st : SecurityState)
    (auth_data : String) (now : ℚ)
    (h : auth_data.toList.count ':' ≠ 1) :
    handle_client_auth st auth_data now = (st, .errorClosed) := by
  have hlen : (splitColon auth_data.toList).length ≠ 2 := by
    rw [splitColon_length]
    omega
  unfold handle_client_auth
  rcases hsp : splitColon auth_data.toList with _ | ⟨a, _ | ⟨b, _ | ⟨c, t⟩⟩⟩
  · rfl
  · rfl
  · rw [hsp] at hlen
    simp at hlen
  · rfl

/-- Witness for claim C10 at a concrete input with no colon at all. -/
theorem c10_bad_auth_frame_closes_silently_witness :
    ("sensor".toList.count ':' ≠ 1) ∧
    handle_client_auth ⟨[], [], []⟩ "sensor" 0
      = (⟨[], [], []⟩, AuthOutcome.errorClosed) :=
  ⟨by decide, c10_bad_auth_frame_closes_silently _ _ _ (by decide)⟩
